import Mathlib

/-
Verification of the intent-classification and email-dialogue logic of
`assistant.py` (a voice-driven virtual assistant).

The Python string operations used by `parse_and_execute` are modelled on
`List Char` with structural recursion, so that every definition evaluates
inside the kernel.  `parse_and_execute`'s ordered `elif` chain is embedded
as the pure function `classify`; the inline email conversation
(lines 235-251 of the source) as `emailDialogue`, with the sequence of
`listen()` results made an explicit input stream.
-/

namespace Assistant

/-- Python strings are modelled as lists of characters. -/
abbrev Str := List Char

/-- Converts a Lean string literal into the model type. -/
def S (s : String) : Str := s.toList

/-- Index of the first occurrence of `pat` in a string, if any
(character-level substring search, as in Python's `str.find`). -/
def findSub (pat : Str) : Str → Option Nat
  | [] => if pat.isPrefixOf ([] : Str) then some 0 else none
  | c :: rest =>
    if pat.isPrefixOf (c :: rest) then some 0
    else (findSub pat rest).map (fun i => i + 1)

/-- Python's substring test `pat in s`. -/
def pyContains (s pat : Str) : Bool := (findSub pat s).isSome

/-- Python's `s.startswith(p)`. -/
def pyStartsWith (s p : Str) : Bool := p.isPrefixOf s

/-- Python's `s.split(sep, 1)[1]`: everything after the first occurrence of
`sep`; `none` when `sep` does not occur (where Python would raise). -/
def afterFirst (s sep : Str) : Option Str :=
  (findSub sep s).map (fun i => s.drop (i + sep.length))

/-- Worker for `pySplit`, accumulating the current token reversed. -/
def pySplitAux : Str → Str → List Str
  | [], acc => if acc.isEmpty then [] else [acc.reverse]
  | c :: rest, acc =>
    if c.isWhitespace then
      if acc.isEmpty then pySplitAux rest [] else acc.reverse :: pySplitAux rest []
    else pySplitAux rest (c :: acc)

/-- Python's `s.split()`: split on runs of whitespace, dropping empty tokens. -/
def pySplit (s : Str) : List Str := pySplitAux s []

/-- Python's `s.strip()`. -/
def pyStrip (s : Str) : Str :=
  ((s.dropWhile Char.isWhitespace).reverse.dropWhile Char.isWhitespace).reverse

/-- Fuel-bounded worker for `pyReplace`; the fuel argument only forces
structural termination and is never exhausted when it starts at
`s.length + 1`, since every step consumes at least one character of `s`
(the patterns used in the source are all non-empty). -/
def pyReplaceAux : Nat → Str → Str → Str → Str
  | 0, s, _, _ => s
  | n + 1, s, pat, rep =>
    if pat.isEmpty then s
    else if pat.isPrefixOf s then rep ++ pyReplaceAux n (s.drop pat.length) pat rep
    else
      match s with
      | [] => []
      | c :: rest => c :: pyReplaceAux n rest pat rep

/-- Python's `s.replace(pat, rep)`: replace every non-overlapping occurrence,
scanning left to right. -/
def pyReplace (s pat rep : Str) : Str := pyReplaceAux (s.length + 1) s pat rep

/-- Greeting keywords of the first rule of `parse_and_execute`. -/
def greetKeywords : List Str := [S "hello", S "hi", S "hey"]

/-- Exit keywords of the stop/quit rule. -/
def exitKeywords : List Str := [S "quit", S "exit", S "shutdown", S "stop assistant", S "goodbye"]

/-- The three app-name markers the open-application branch iterates over
(each carries a trailing space, exactly as in the source). -/
def appMarkers : List Str := [S "launch ", S "open app ", S "open application "]

/-- The `quick` table of the open-website branch. -/
def quickMap : List (Str × Str) :=
  [(S "youtube", S "youtube.com"), (S "google", S "google.com"), (S "gmail", S "mail.google.com")]

/-- Result of classifying one utterance.  `AppIndexError` marks the branch
where the source evaluates `split()[0]` on an empty list (an uncaught
`IndexError`); `AppNoop` marks the branch where the open-application rule
matched but its inner loop found no marker, so the source falls through
doing nothing. -/
inductive Classification where
  | Greet
  | TellTime
  | TellDate
  | OpenWebsite (target : Str)
  | OpenApp (appName : Str)
  | AppIndexError
  | AppNoop
  | Encyclopedia (topic : Str)
  | Weather (city : Str)
  | WeatherMissingCity
  | ComposeEmail
  | Exit
  | Fallback (query : Str)
deriving DecidableEq

/-- Condition of the greeting rule. -/
def greetCond (t : Str) : Bool := greetKeywords.any (fun kw => pyContains t kw)

/-- Condition of the time rule. -/
def timeCond (t : Str) : Bool := pyContains t (S "time")

/-- Condition of the date rule. -/
def dateCond (t : Str) : Bool := pyContains t (S "date") || pyContains t (S "day")

/-- Condition of the open-website rule. -/
def openSiteCond (t : Str) : Bool := pyStartsWith t (S "open ")

/-- Condition of the open-application rule (note: `"open application"`
here has no trailing space, unlike the marker list). -/
def openAppCond (t : Str) : Bool :=
  pyContains t (S "launch ") || pyContains t (S "open app ") || pyContains t (S "open application")

/-- Condition of the encyclopedia rule. -/
def wikiCond (t : Str) : Bool :=
  pyStartsWith t (S "who is ") || pyStartsWith t (S "what is ") || pyStartsWith t (S "tell me about ")

/-- Condition of the weather rule. -/
def weatherCond (t : Str) : Bool := pyContains t (S "weather")

/-- Condition of the send-email rule. -/
def emailCond (t : Str) : Bool := pyContains t (S "send email") || pyContains t (S "send an email")

/-- Condition of the stop/quit rule. -/
def exitCond (t : Str) : Bool := exitKeywords.any (fun kw => pyContains t kw)

/-- The open-website branch's target: `text.replace("open ", "").strip()`. -/
def websiteTarget (t : Str) : Str := pyStrip (pyReplace t (S "open ") [])

/-- Quick-mapping substitution: `quick[target] if target in quick else target`. -/
def resolveQuick (target : Str) : Str :=
  match List.lookup target quickMap with
  | some dom => dom
  | none => target

/-- The open-application branch: find the first marker occurring in the
text, take `text.split(marker, 1)[1].strip().split()`, and use its head as
the application name; an empty token list is the `IndexError`, a missing
marker the silent fall-through. -/
def appParse (t : Str) : Classification :=
  match appMarkers.find? (fun p => pyContains t p) with
  | none => .AppNoop
  | some p =>
    match afterFirst t p with
    | none => .AppNoop
    | some rest =>
      match pySplit (pyStrip rest) with
      | [] => .AppIndexError
      | a :: _ => .OpenApp a

/-- The encyclopedia branch's topic: the three chained `replace` calls of
the source followed by `strip()`. -/
def wikiTopic (t : Str) : Str :=
  pyStrip (pyReplace (pyReplace (pyReplace t (S "who is ") []) (S "what is ") []) (S "tell me about ") [])

/-- The tokens after the first occurrence of `"in"`: this is
`words[words.index("in") + 1:]` expressed with `dropWhile`. -/
def tokensAfterFirstIn (words : List Str) : List Str :=
  (words.dropWhile (fun w => w != S "in")).tail

/-- The weather branch: tokenize, and when the token `"in"` occurs take the
space-joined remainder after its first occurrence as the city; an absent
`"in"` token or an empty remainder reaches the corrective prompt. -/
def weatherParse (t : Str) : Classification :=
  if S "in" ∈ pySplit t then
    if List.intercalate (S " ") (tokensAfterFirstIn (pySplit t)) ≠ [] then
      .Weather (List.intercalate (S " ") (tokensAfterFirstIn (pySplit t)))
    else .WeatherMissingCity
  else .WeatherMissingCity

/-- The ordered rule chain of `parse_and_execute` (lines 185-263 of the
source), restricted to its pure classification content. -/
def classify (t : Str) : Classification :=
  if greetCond t then .Greet
  else if timeCond t then .TellTime
  else if dateCond t then .TellDate
  else if openSiteCond t then .OpenWebsite (resolveQuick (websiteTarget t))
  else if openAppCond t then appParse t
  else if wikiCond t then .Encyclopedia (wikiTopic t)
  else if weatherCond t then weatherParse t
  else if emailCond t then .ComposeEmail
  else if exitCond t then .Exit
  else .Fallback (pyReplace t (S " ") (S "+"))

/-- URL normalization performed by `open_website`: prefix `"https://"`
unless the url already starts with `"http"`. -/
def normalizeUrl (url : Str) : Str :=
  if pyStartsWith url (S "http") then url else S "https://" ++ url

/-- A url "carries a scheme" in the sense of the specification's wording
when it contains the scheme separator `"://"`. -/
def carriesScheme (url : Str) : Bool := pyContains url (S "://")

/-- Python's first-index search `words.index(a)` (meaningful when `a`
occurs; returns the length otherwise). -/
def firstIndexOf (l : List Str) (a : Str) : Nat :=
  match l with
  | [] => 0
  | w :: rest => if w = a then 0 else firstIndexOf rest a + 1

/-- The weather city in index form: tokens strictly after the first
occurrence of `"in"`, joined by single spaces. -/
def cityFromFirstIn (t : Str) : Str :=
  List.intercalate (S " ") ((pySplit t).drop (firstIndexOf (pySplit t) (S "in") + 1))

/-- The weather city as the specification words it: tokens strictly after
the last occurrence of `"in"`, joined by single spaces. -/
def cityFromLastIn (t : Str) : Str :=
  List.intercalate (S " ") (((pySplit t).reverse.takeWhile (fun w => w != S "in")).reverse)

/-- An utterance reaches the weather rule: every earlier rule's condition
is false and the weather condition holds. -/
def reachesWeatherRule (t : Str) : Bool :=
  !greetCond t && !timeCond t && !dateCond t && !openSiteCond t &&
    !openAppCond t && !wikiCond t && weatherCond t

/-- An utterance reaches the stop/quit rule: every earlier rule's condition
is false and an exit keyword occurs. -/
def reachesExitRule (t : Str) : Bool :=
  !greetCond t && !timeCond t && !dateCond t && !openSiteCond t && !openAppCond t &&
    !wikiCond t && !weatherCond t && !emailCond t && exitCond t

/-- Terminal outcomes of the email conversation. -/
inductive EmailOutcome where
  | Sent
  | CancelledNoRecipient
  | CancelledNotConfirmed
deriving DecidableEq

/-- Observable result of one email conversation: terminal outcome, the
calls made to the send collaborator, how many `listen()` calls ran, and
the draft `(recipient, subject, body)` reached before the confirmation
step (`none` when cancelled at the recipient slot). -/
structure EmailRun where
  outcome : EmailOutcome
  sends : List (Str × Str × Str)
  listensUsed : Nat
  draft : Option (Str × Str × Str)
deriving DecidableEq

/-- Python truthiness of a `listen()` result: `None` and the empty string
are falsy. -/
def truthy (o : Option Str) : Bool :=
  match o with
  | none => false
  | some s => !s.isEmpty

/-- Python's `x or d` on a `listen()` result. -/
def pyOr (o : Option Str) (d : Str) : Str :=
  match o with
  | none => d
  | some s => if s.isEmpty then d else s

/-- The inline email conversation of `parse_and_execute`: the i-th
`listen()` call is modelled as `listen i`.  Recipient falsy cancels at
once; subject defaults to `"No subject"`; body defaults to empty; the send
collaborator runs only when the confirmation is truthy and contains
`"yes"`. -/
def emailDialogue (listen : Nat → Option Str) : EmailRun :=
  if truthy (listen 0) then
    let toAddr := (listen 0).getD []
    let subject := pyOr (listen 1) (S "No subject")
    let body := pyOr (listen 2) []
    let conf := listen 3
    if truthy conf && pyContains (conf.getD []) (S "yes") then
      ⟨.Sent, [(toAddr, subject, body)], 4, some (toAddr, subject, body)⟩
    else
      ⟨.CancelledNotConfirmed, [], 4, some (toAddr, subject, body)⟩
  else
    ⟨.CancelledNoRecipient, [], 1, none⟩

/-- Observable result of one whole turn of `parse_and_execute`:
`classification` is `none` when the utterance was absent (`text is None`),
`email` records the sub-dialogue when the email rule fired. -/
structure TurnRun where
  classification : Option Classification
  email : Option EmailRun
deriving DecidableEq

/-- One turn of `parse_and_execute`: an absent utterance returns at once;
otherwise the utterance is classified and, for `ComposeEmail`, the email
conversation consumes the listen stream. -/
def parseAndExecute (text : Option Str) (listen : Nat → Option Str) : TurnRun :=
  match text with
  | none => ⟨none, none⟩
  | some t =>
    let c := classify t
    ⟨some c, if c = .ComposeEmail then some (emailDialogue listen) else none⟩

/-- The listen stream of the happy-path email scenario. -/
def happyStream : Nat → Option Str
  | 0 => some (S "a@b.com")
  | 1 => some (S "hi")
  | 2 => some (S "test body")
  | 3 => some (S "yes")
  | _ => none

/-- A listen stream whose confirmation step times out. -/
def timeoutConfStream : Nat → Option Str
  | 0 => some (S "a@b.com")
  | 1 => some (S "hi")
  | 2 => some (S "test body")
  | _ => none

/-- A listen stream that provides a recipient and then always times out. -/
def noSubjectStream : Nat → Option Str
  | 0 => some (S "a@b.com")
  | _ => none

/-- The `dropWhile`-and-`tail` form of the remainder after the first
occurrence of `"in"` agrees with the index-and-drop form that mirrors
Python's `words[words.index("in") + 1:]`. -/
theorem tokensAfterFirstIn_eq_drop (l : List Str) :
    tokensAfterFirstIn l = l.drop (firstIndexOf l (S "in") + 1) := by
  induction l with
  | nil => rfl
  | cons w rest ih =>
    by_cases h : w = S "in"
    · subst h
      simp [tokensAfterFirstIn, firstIndexOf, List.dropWhile]
    · have hb : (w != S "in") = true := by simp [h]
      simp only [tokensAfterFirstIn, firstIndexOf, List.dropWhile, hb, if_neg h]
      exact ih

/-- The weather-branch city expression rewritten through `cityFromFirstIn`. -/
theorem weatherParse_eq (t : Str) :
    weatherParse t =
      (if S "in" ∈ pySplit t then
        if cityFromFirstIn t ≠ [] then Classification.Weather (cityFromFirstIn t)
        else .WeatherMissingCity
      else .WeatherMissingCity) := by
  unfold weatherParse cityFromFirstIn
  rw [tokensAfterFirstIn_eq_drop]

/-- When every rule before the weather rule fails and the weather condition
holds, `classify` lands in the weather branch. -/
theorem classify_weather_branch (t : Str) (h : reachesWeatherRule t = true) :
    classify t = weatherParse t := by
  simp only [reachesWeatherRule, Bool.and_eq_true, Bool.not_eq_true'] at h
  obtain ⟨⟨⟨⟨⟨⟨h1, h2⟩, h3⟩, h4⟩, h5⟩, h6⟩, h7⟩ := h
  simp [classify, h1, h2, h3, h4, h5, h6, h7]

/-- C1 (counterexample): the city is NOT the remainder after the last
occurrence of the token "in": on "weather in berlin in summer", which
reaches the weather rule, the code takes the remainder after the FIRST
occurrence, "berlin in summer", while the claim's last-occurrence reading
yields "summer". -/
theorem weather_city_last_in_false :
    reachesWeatherRule (S "weather in berlin in summer") = true ∧
    cityFromLastIn (S "weather in berlin in summer") = S "summer" ∧
    classify (S "weather in berlin in summer") = .Weather (S "berlin in summer") ∧
    (S "berlin in summer" ≠ S "summer") := by decide

/-- C1 (amended): for every utterance that reaches the weather rule, when
the whitespace tokenization contains the token "in" the city is the
space-joined remainder after its FIRST occurrence; a non-empty remainder
gives Weather, an empty remainder or an absent "in" token gives the
corrective WeatherMissingCity outcome; in particular
classify "weather in new york" = Weather "new york" and
classify "weather" = WeatherMissingCity. -/
theorem weather_city_after_first_in (t : Str) (h : reachesWeatherRule t = true) :
    (S "in" ∈ pySplit t → cityFromFirstIn t ≠ [] →
      classify t = .Weather (cityFromFirstIn t)) ∧
    (S "in" ∈ pySplit t → cityFromFirstIn t = [] →
      classify t = .WeatherMissingCity) ∧
    (S "in" ∉ pySplit t → classify t = .WeatherMissingCity) ∧
    classify (S "weather in new york") = .Weather (S "new york") ∧
    classify (S "weather") = .WeatherMissingCity := by
  have hc := classify_weather_branch t h
  rw [weatherParse_eq] at hc
  refine ⟨?_, ?_, ?_, by decide, by decide⟩
  · intro hin hcity
    rw [hc, if_pos hin, if_pos hcity]
  · intro hin hcity
    rw [hc, if_pos hin, if_neg (by simp [hcity])]
  · intro hin
    rw [hc, if_neg hin]

/-- C1 (witness): the amended theorem applied to "weather in new york". -/
theorem weather_city_after_first_in_witness :
    classify (S "weather in new york") = .Weather (cityFromFirstIn (S "weather in new york")) :=
  (weather_city_after_first_in (S "weather in new york") (by decide)).1 (by decide) (by decide)

/-- C2: on the utterance "launch " (marker present, no token after it) the
open-application branch evaluates `split()[0]` on an empty list, an
uncaught IndexError, and on "please open application" the branch condition
matches but the inner marker loop finds nothing and the turn silently does
nothing; neither input yields the claimed OpenApp intent with an empty
application key. -/
theorem open_app_missing_token_crash_or_noop :
    classify (S "launch ") = .AppIndexError ∧
    classify (S "please open application") = .AppNoop ∧
    classify (S "launch ") ≠ .OpenApp [] ∧
    classify (S "please open application") ≠ .OpenApp [] := by decide

/-- C6 (counterexample): an utterance containing an exit keyword is not
always classified Exit: "hi quit" contains the exit keyword "quit" yet
classifies as Greet, because the greeting rule runs first. -/
theorem exit_not_unconditional :
    exitCond (S "hi quit") = true ∧
    classify (S "hi quit") = .Greet ∧
    classify (S "hi quit") ≠ .Exit := by decide

/-- C6 (amended): an utterance containing an exit keyword classifies as
Exit provided no earlier rule (greeting, time, date, open-website,
open-application, encyclopedia, weather, email) matches it. -/
theorem exit_when_no_earlier_rule (t : Str) (h : reachesExitRule t = true) :
    classify t = .Exit := by
  simp only [reachesExitRule, Bool.and_eq_true, Bool.not_eq_true'] at h
  obtain ⟨⟨⟨⟨⟨⟨⟨⟨h1, h2⟩, h3⟩, h4⟩, h5⟩, h6⟩, h7⟩, h8⟩, h9⟩ := h
  simp [classify, h1, h2, h3, h4, h5, h6, h7, h8, h9]

/-- C6 (witness): the amended theorem applied to "goodbye". -/
theorem exit_when_no_earlier_rule_witness : classify (S "goodbye") = .Exit :=
  exit_when_no_earlier_rule (S "goodbye") (by decide)

/-- C7 (counterexample): the url normalization is not "prefix a scheme if
absent, leave a present scheme alone": "ftp://example.org" carries a
scheme (it contains "://") yet open_website rewrites it to
"https://ftp://example.org". -/
theorem website_scheme_not_general :
    classify (S "open ftp://example.org") = .OpenWebsite (S "ftp://example.org") ∧
    carriesScheme (S "ftp://example.org") = true ∧
    normalizeUrl (S "ftp://example.org") ≠ S "ftp://example.org" := by decide

/-- C7 (amended): classify "open youtube" = OpenWebsite "youtube.com"
(quick-mapping substitution) and classify "open example.org" =
OpenWebsite "example.org" (unmapped target passed through); when the
website is opened, a target not starting with the literal "http" is
prefixed with "https://", and a target starting with "http" is opened
unchanged. -/
theorem open_website_quick_map_and_http_check (u : Str) :
    classify (S "open youtube") = .OpenWebsite (S "youtube.com") ∧
    classify (S "open example.org") = .OpenWebsite (S "example.org") ∧
    (pyStartsWith u (S "http") = true → normalizeUrl u = u) ∧
    (pyStartsWith u (S "http") = false → normalizeUrl u = S "https://" ++ u) := by
  refine ⟨by decide, by decide, ?_, ?_⟩ <;> intro hu <;> simp [normalizeUrl, hu]

/-- C7 (witness): the amended theorem applied to "youtube.com". -/
theorem open_website_quick_map_and_http_check_witness :
    normalizeUrl (S "youtube.com") = S "https://" ++ S "youtube.com" :=
  (open_website_quick_map_and_http_check (S "youtube.com")).2.2.2 (by decide)

/-- C8 (counterexample): the empty utterance is NOT a no-op turn: it falls
through every rule and triggers the fallback web search (with an empty
query), so its classification is not the absent one. -/
theorem empty_utterance_triggers_fallback :
    parseAndExecute (some (S "")) (fun _ => none) = ⟨some (.Fallback (S "")), none⟩ ∧
    (parseAndExecute (some (S "")) (fun _ => none)).classification ≠ none := by decide

/-- C8 (amended): an absent utterance (text is None) is a no-op turn with
no classification, while the empty utterance is classified and triggers
the fallback web search with an empty query. -/
theorem absent_utterance_is_noop (listen : Nat → Option Str) :
    parseAndExecute none listen = ⟨none, none⟩ ∧
    parseAndExecute (some (S "")) listen = ⟨some (.Fallback (S "")), none⟩ := by
  refine ⟨rfl, ?_⟩
  simp only [parseAndExecute]
  rw [show classify (S "") = .Fallback (S "") from by decide, if_neg (by decide)]

/-- C9: classification is deterministic and independent of the external
listen stream: two runs of a turn on the same utterance, against any two
listen streams, produce the identical classification (intent together with
its extracted arguments). -/
theorem classification_independent_of_listen_stream
    (text : Option Str) (f g : Nat → Option Str) :
    (parseAndExecute text f).classification = (parseAndExecute text g).classification := by
  cases text <;> rfl

/-- C10: greeting detection is bare substring matching and the greeting
rule runs first, so every utterance whose text contains "hello", "hi" or
"hey" anywhere classifies as Greet, preempting all later rules; in
particular "weather in chicago" and "tell me about history" (which contain
"hi") classify as Greet. -/
theorem greeting_substring_preempts_all (t : Str) (h : greetCond t = true) :
    classify t = .Greet ∧
    classify (S "weather in chicago") = .Greet ∧
    classify (S "tell me about history") = .Greet := by
  refine ⟨?_, by decide, by decide⟩
  simp [classify, h]

/-- C10 (witness): the theorem applied to "weather in chicago". -/
theorem greeting_substring_preempts_all_witness :
    classify (S "weather in chicago") = .Greet :=
  (greeting_substring_preempts_all (S "weather in chicago") (by decide)).1

/-- C3: the happy-path email conversation (listens "a@b.com", "hi",
"test body", "yes") ends Sent with exactly one send carrying those three
values; moreover in every email conversation the send collaborator runs at
most once, and only when the 4th listen captured text containing the
affirmative keyword "yes". -/
theorem email_happy_path_sends_once :
    emailDialogue happyStream =
      ⟨.Sent, [(S "a@b.com", S "hi", S "test body")], 4,
        some (S "a@b.com", S "hi", S "test body")⟩ ∧
    (∀ listen : Nat → Option Str, (emailDialogue listen).sends.length ≤ 1) ∧
    (∀ (listen : Nat → Option Str) (call : Str × Str × Str),
      call ∈ (emailDialogue listen).sends →
      ∃ conf, listen 3 = some conf ∧ pyContains conf (S "yes") = true) := by
  refine ⟨by decide, ?_, ?_⟩
  · intro listen
    unfold emailDialogue
    by_cases h1 : truthy (listen 0) = true
    · by_cases h4 : (truthy (listen 3) && pyContains ((listen 3).getD []) (S "yes")) = true
      · simp [h1, h4]
      · simp [h1, h4]
    · simp [h1]
  · intro listen call hmem
    unfold emailDialogue at hmem
    by_cases h1 : truthy (listen 0) = true
    · by_cases h4 : (truthy (listen 3) && pyContains ((listen 3).getD []) (S "yes")) = true
      · rw [Bool.and_eq_true] at h4
        obtain ⟨ht, hy⟩ := h4
        match hl : listen 3 with
        | none => rw [hl] at ht; simp [truthy] at ht
        | some c =>
          rw [hl] at hy
          exact ⟨c, rfl, by simpa using hy⟩
      · simp [h1, h4] at hmem
    · simp [h1] at hmem

/-- C3 (witness): the guard clause of the theorem applied to the
happy-path stream and its single send. -/
theorem email_happy_path_sends_once_witness :
    ∃ conf, happyStream 3 = some conf ∧ pyContains conf (S "yes") = true :=
  email_happy_path_sends_once.2.2 happyStream (S "a@b.com", S "hi", S "test body") (by decide)

/-- C4: when the conversation reaches the confirmation step (a truthy
recipient was captured) and the confirmation listen returns nothing or any
text not containing "yes", the conversation ends Cancelled and the send
collaborator is never invoked. -/
theorem email_confirmation_failure_cancels (listen : Nat → Option Str)
    (hrecip : truthy (listen 0) = true)
    (hconf : ∀ c, listen 3 = some c → pyContains c (S "yes") = false) :
    (emailDialogue listen).outcome = .CancelledNotConfirmed ∧
    (emailDialogue listen).sends = [] := by
  have hcond : (truthy (listen 3) && pyContains ((listen 3).getD []) (S "yes")) = false := by
    match hl : listen 3 with
    | none => simp [truthy]
    | some c => simp [hconf c hl]
  unfold emailDialogue
  simp [hrecip, hcond]

/-- C4 (witness): the theorem applied to a stream whose confirmation
listen times out. -/
theorem email_confirmation_failure_cancels_witness :
    (emailDialogue timeoutConfStream).outcome = .CancelledNotConfirmed ∧
    (emailDialogue timeoutConfStream).sends = [] :=
  email_confirmation_failure_cancels timeoutConfStream (by decide)
    (fun c h => by rw [show timeoutConfStream 3 = none from rfl] at h; exact Option.noConfusion h)

/-- C5: if the recipient listen returns nothing the conversation cancels
after that single listen, with nothing sent; if the subject listen returns
nothing the subject defaults to "No subject" and the dialogue advances to
the confirmation listen; if the body listen returns nothing the body
defaults to the empty string and the dialogue likewise advances. -/
theorem email_slot_timeout_policy (listen : Nat → Option Str) :
    (listen 0 = none →
      emailDialogue listen = ⟨.CancelledNoRecipient, [], 1, none⟩) ∧
    (truthy (listen 0) = true → listen 1 = none →
      (emailDialogue listen).listensUsed = 4 ∧
      ∃ d, (emailDialogue listen).draft = some d ∧ d.2.1 = S "No subject") ∧
    (truthy (listen 0) = true → listen 2 = none →
      (emailDialogue listen).listensUsed = 4 ∧
      ∃ d, (emailDialogue listen).draft = some d ∧ d.2.2 = []) := by
  refine ⟨?_, ?_, ?_⟩
  · intro h0
    unfold emailDialogue
    rw [h0]
    simp [truthy]
  · intro h0 h1
    unfold emailDialogue
    by_cases h4 : (truthy (listen 3) && pyContains ((listen 3).getD []) (S "yes")) = true
    · simp [h0, h1, h4, pyOr]
    · simp [h0, h1, h4, pyOr]
  · intro h0 h2
    unfold emailDialogue
    by_cases h4 : (truthy (listen 3) && pyContains ((listen 3).getD []) (S "yes")) = true
    · simp [h0, h2, h4, pyOr]
    · simp [h0, h2, h4, pyOr]

/-- C5 (witness): the subject-default clause of the theorem applied to a
stream that provides only a recipient. -/
theorem email_slot_timeout_policy_witness :
    (emailDialogue noSubjectStream).listensUsed = 4 ∧
    ∃ d, (emailDialogue noSubjectStream).draft = some d ∧ d.2.1 = S "No subject" :=
  (email_slot_timeout_policy noSubjectStream).2.1 (by decide) (by decide)

end Assistant
